import Mathlib

/-
Verification of cosmic-utils/calculator against its specification.

Part 1 embeds src/calculation.rs (with the operator helpers it calls,
Operator::expression and Operator::display, defined in src/app/operator.rs).
Part 2 embeds src/launcher.rs: the subscription driver, the per-generation
service loop, client_request, and the response-relay race.
-/

namespace Calc

/-- Value returned by the external calculator_rs evaluator used by
src/calculation.rs (on_equals_press): Integer (i64) or Float (f64).
The f64 payload is modelled as a rational number, because the claims under
study depend only on which arm is taken, never on IEEE rounding. -/
inductive Value where
  | Integer (v : Int)
  | Float (v : Rat)
deriving DecidableEq, Repr

/-- Operator variants from src/operator.rs as handled by the match in
Calculation::on_operator_press (src/calculation.rs lines 35-49); that match
covers exactly these nine constructors. -/
inductive Operator where
  | Add
  | Subtract
  | Multiply
  | Divide
  | Modulus
  | Point
  | Equal
  | Clear
  | Backspace
deriving DecidableEq, Repr

/-- Operator::expression from src/app/operator.rs (lines 61-79), restricted to
the variants of the enum above. -/
def Operator.expression : Operator → String
  | Operator.Add => "+"
  | Operator.Subtract => "-"
  | Operator.Multiply => "*"
  | Operator.Divide => "/"
  | Operator.Point => "."
  | Operator.Equal => "="
  | Operator.Clear => "C"
  | Operator.Backspace => "⌫"
  | Operator.Modulus => "%"

/-- Operator::display from src/app/operator.rs (lines 21-39), restricted to
the variants of the enum above. -/
def Operator.display : Operator → String
  | Operator.Add => "+"
  | Operator.Subtract => "-"
  | Operator.Multiply => "x"
  | Operator.Divide => "÷"
  | Operator.Modulus => "mod"
  | Operator.Point => "."
  | Operator.Equal => "="
  | Operator.Clear => "C"
  | Operator.Backspace => "⌫"

/-- Calculation struct from src/calculation.rs (lines 7-12); the f64 result
field is modelled as Rat. -/
structure Calculation where
  display : String
  expression : String
  result : Rat
deriving Repr

/-- Calculation::add_operator (src/calculation.rs lines 25-28): push the
operator expression text onto the expression and the display text onto the
display. -/
def add_operator (c : Calculation) (op : Operator) : Calculation :=
  { c with
    expression := c.expression ++ op.expression,
    display := c.display ++ op.display }

/-- Calculation::clear (src/calculation.rs lines 62-66). -/
def clear (c : Calculation) : Calculation :=
  { c with display := "", expression := "", result := 0 }

/-- Calculation::on_equals_press (src/calculation.rs lines 51-60).
The external evaluator (the calculate method of the calculator_rs crate) is a
parameter: the Rust code pattern-matches its Result, writing the integer value
cast to f64, the float value, or 0.0 on Err, into the result field; nothing
else is touched and no error escapes (the Rust function returns unit). -/
def on_equals_press (calculate : String → Except Unit Value) (c : Calculation) :
    Calculation :=
  { c with
    result :=
      match calculate c.expression with
      | Except.ok (Value.Integer v) => (v : Rat)
      | Except.ok (Value.Float v) => v
      | Except.error _ => 0 }

/-- Calculation::on_operator_press (src/calculation.rs lines 35-49). -/
def on_operator_press (calculate : String → Except Unit Value)
    (c : Calculation) (op : Operator) : Calculation :=
  match op with
  | Operator.Add => add_operator c Operator.Add
  | Operator.Subtract => add_operator c Operator.Subtract
  | Operator.Multiply => add_operator c Operator.Multiply
  | Operator.Divide => add_operator c Operator.Divide
  | Operator.Modulus => add_operator c Operator.Modulus
  | Operator.Point => add_operator c Operator.Point
  | Operator.Clear => clear c
  | Operator.Equal => on_equals_press calculate c
  | Operator.Backspace => { c with expression := c.expression.dropRight 1 }

/-- Evaluator stub that always fails, used to instantiate theorems at
concrete inputs. -/
def evalStub : String → Except Unit Value := fun _ => Except.error ()

end Calc

namespace Launcher

/-- Raw textual payload of one pop_launcher::Response message; the wire
protocol is opaque to the core. -/
abbrev Payload := String

/-- Request enum from src/launcher.rs (lines 10-14). -/
inductive Request where
  | Search (s : String)
  | ServiceIsClosed
deriving DecidableEq, Repr

/-- Event enum from src/launcher.rs (lines 16-21). Started carries a clone of
the generation request sender; the handle is modelled by the id of the
generation it belongs to. -/
inductive Event where
  | Started (gen : Nat)
  | Response (p : Payload)
  | ServiceIsClosed
deriving DecidableEq, Repr

/-- Spawn failure reasons for pop_launcher_service::IpcClient::new_with_args
(src/launcher.rs line 75): the executable may be missing, or the OS spawn can
fail for another reason; the error value is what gets logged at line 106, so
the two cases stay distinguishable in the log. -/
inductive SpawnError where
  | missingExecutable
  | otherSpawnError (msg : String)
deriving DecidableEq, Repr

/-- One response relay (the listener task spawned at src/launcher.rs lines
84-101): the remaining daemon stream, whether its one-shot kill signal has
fired (kill_tx dropped), and whether the select race has resolved and the
task finished. -/
structure RelayT where
  msgs : List Payload
  killFired : Bool
  finished : Bool
deriving DecidableEq, Repr

/-- State of one service-loop generation (src/launcher.rs service, lines
40-67). pending is the request channel buffer; externalTx counts live request
senders held outside the service future (clones of the handle carried by
Started); loopDone records whether the recv loop has exited; slot is the
`Option<(IpcClient, oneshot::Sender<()>)>` owned by the loop, holding the
relay of the live connection; detached holds relays whose handle was dropped
(kill fired) but whose task may not have resolved yet; trace is the sequence
of events pushed onto the generation response channel; sent, errlog and
spawns are ghost observers recording the queries forwarded to the connection,
the logged spawn failures, and the number of spawn attempts. -/
structure GState where
  gen : Nat
  pending : List Request
  externalTx : Nat
  loopDone : Bool
  slot : Option RelayT
  detached : List RelayT
  trace : List Event
  sent : List String
  errlog : List SpawnError
  spawns : Nat
deriving DecidableEq, Repr

/-- Initial state of generation g: the future has already pushed
Event::Started carrying the sender clone (line 45), the consumer holds that
one handle, and the slot starts empty (`let client = &mut None`, line 47). -/
def initG (g : Nat) : GState :=
  { gen := g
    pending := []
    externalTx := 1
    loopDone := false
    slot := none
    detached := []
    trace := [Event.Started g]
    sent := []
    errlog := []
    spawns := 0 }

/-- Number of live senders of the request channel: the external handles plus
the original requests_tx, which was moved into the service future (it is used
at line 45 inside the async move block) and is only dropped when the future
completes. -/
def senderCount (s : GState) : Nat :=
  s.externalTx + (if s.loopDone then 0 else 1)

/-- Result of one client_request call: the slot it returns, the spawn errors
it logged, and how many spawn attempts it made (ghost). -/
structure CRResult where
  slot : Option RelayT
  log : List SpawnError
  attempts : Nat
deriving DecidableEq, Repr

/-- client_request from src/launcher.rs (lines 70-113): if the slot is Some
it is returned untouched; otherwise one spawn is attempted — on Ok the slot
is filled with the new connection and a fresh relay bound to the daemon
stream, on Err the error is logged and the slot stays None. -/
def client_request (spawnRes : Except SpawnError (List Payload))
    (slot : Option RelayT) : CRResult :=
  match slot with
  | some r => ⟨some r, [], 0⟩
  | none =>
    match spawnRes with
    | Except.ok ms => ⟨some ⟨ms, false, false⟩, [], 1⟩
    | Except.error why => ⟨none, [why], 1⟩

/-- Body of the service recv loop for one request (src/launcher.rs lines
50-60): Search ensures a client via client_request and forwards the query to
the connection when one is available; ServiceIsClosed assigns None to the
slot, which drops the handle, firing the relay kill signal. -/
def processRequest (spawnRes : Except SpawnError (List Payload))
    (s : GState) (r : Request) : GState :=
  match r with
  | Request.Search q =>
    match client_request spawnRes s.slot with
    | ⟨some r2, lg, att⟩ =>
      { s with
        slot := some r2
        errlog := s.errlog ++ lg
        spawns := s.spawns + att
        sent := s.sent ++ [q] }
    | ⟨none, lg, att⟩ =>
      { s with
        slot := none
        errlog := s.errlog ++ lg
        spawns := s.spawns + att }
  | Request.ServiceIsClosed =>
    match s.slot with
    | none => s
    | some r2 =>
      { s with
        slot := none
        detached := s.detached ++ [{ r2 with killFired := true }] }

/-- One poll of the listener side of a relay: forward the next daemon message
as Event::Response, or, when the stream has ended, push Event::ServiceIsClosed
once and finish (src/launcher.rs lines 86-92). -/
def pumpOne (r : RelayT) : RelayT × Option Event :=
  if r.finished then (r, none)
  else
    match r.msgs with
    | [] => ({ r with finished := true }, some Event.ServiceIsClosed)
    | p :: ps => ({ r with msgs := ps }, some (Event.Response p))

/-- Pump the i-th relay of a list. -/
def pumpAt : List RelayT → Nat → List RelayT × Option Event
  | [], _ => ([], none)
  | r :: rs, 0 => ((pumpOne r).1 :: rs, (pumpOne r).2)
  | r :: rs, Nat.succ n => (r :: (pumpAt rs n).1, (pumpAt rs n).2)

/-- Resolve the select race of the i-th relay in favour of the killswitch:
the task finishes without pushing anything (src/launcher.rs lines 94-98).
Only enabled once the kill has fired and only if the listener has not already
completed. -/
def cancelWinAt : List RelayT → Nat → List RelayT
  | [], _ => []
  | r :: rs, 0 =>
    (if r.killFired && !r.finished then { r with finished := true } else r) :: rs
  | r :: rs, Nat.succ n => r :: cancelWinAt rs n

/-- Scheduler actions of one generation: consumer-side channel operations,
one iteration of the service recv loop (with the outcome the spawn attempt
would have, unused when no spawn happens), the loop observing channel
closure, and polls of the relay tasks. -/
inductive Action where
  | submit (r : Request)
  | cloneHandle
  | dropHandle
  | recvStep (spawnRes : Except SpawnError (List Payload))
  | recvClosed
  | pumpSlot
  | pumpDetached (i : Nat)
  | cancelWin (i : Nat)
deriving Repr

/-- Small-step interleaving semantics of one generation. recvClosed models
`requests_rx.recv()` returning None, which tokio only does once every sender
is dropped and the buffer is drained. -/
def doStep (s : GState) (a : Action) : GState :=
  match a with
  | Action.submit r =>
    if 0 < s.externalTx then { s with pending := s.pending ++ [r] } else s
  | Action.cloneHandle =>
    if 0 < s.externalTx then { s with externalTx := s.externalTx + 1 } else s
  | Action.dropHandle =>
    { s with externalTx := s.externalTx - 1 }
  | Action.recvStep spawnRes =>
    if s.loopDone then s
    else
      match s.pending with
      | [] => s
      | r :: rest => processRequest spawnRes { s with pending := rest } r
  | Action.recvClosed =>
    if s.loopDone = false ∧ s.pending = [] ∧ senderCount s = 0 then
      { s with loopDone := true }
    else s
  | Action.pumpSlot =>
    match s.slot with
    | none => s
    | some r =>
      { s with
        slot := some (pumpOne r).1
        trace := s.trace ++ ((pumpOne r).2).toList }
  | Action.pumpDetached i =>
    { s with
      detached := (pumpAt s.detached i).1
      trace := s.trace ++ ((pumpAt s.detached i).2).toList }
  | Action.cancelWin i =>
    { s with detached := cancelWinAt s.detached i }

/-- Run a generation under a scheduler. -/
def genRun (acts : List Action) (s : GState) : GState :=
  acts.foldl doStep s

/-- Full output of one relay as a function of the daemon stream and of the
point at which the select race resolves for the killswitch: cancelAt = none
means the kill never fires (or never wins); cancelAt = some k means the
cancellation wins after exactly k messages were forwarded, provided the
listener had not already completed (it completes after forwarding all
messages and pushing Closed). -/
def relayOutput (msgs : List Payload) (cancelAt : Option Nat) : List Event :=
  match cancelAt with
  | none => msgs.map Event.Response ++ [Event.ServiceIsClosed]
  | some k =>
    if msgs.length < k then msgs.map Event.Response ++ [Event.ServiceIsClosed]
    else (msgs.take k).map Event.Response

/-- Test for Event.Response. -/
def isResponse : Event → Bool
  | Event.Response _ => true
  | _ => false

/-- Test for Event.Started. -/
def isStarted : Event → Bool
  | Event.Started _ => true
  | _ => false

/-- Number of ServiceIsClosed events in a trace. -/
def countClosed : List Event → Nat
  | [] => 0
  | Event.ServiceIsClosed :: rest => countClosed rest + 1
  | _ :: rest => countClosed rest

/-- Holds when no Response event occurs after the first ServiceIsClosed of
the trace. -/
def noRespAfterClosed : List Event → Bool
  | [] => true
  | Event.ServiceIsClosed :: rest => rest.all (fun e => !(isResponse e))
  | _ :: rest => noRespAfterClosed rest

/-- A relay is live while its kill signal has not fired and its task has not
finished. -/
def RelayT.isActive (r : RelayT) : Bool := !r.killFired && !r.finished

/-- Number of live relays of a generation. -/
def activeRelays (s : GState) : Nat :=
  (match s.slot with
   | none => 0
   | some r => if r.isActive then 1 else 0) +
  (s.detached.filter RelayT.isActive).length

/-- End of the generation event stream: ReceiverStream ends once every
responses_tx clone is dropped, i.e. once the service future has completed and
every relay task (each holds a tx clone) has finished. -/
def streamEndedB (s : GState) : Bool :=
  s.loopDone &&
    (match s.slot with
     | none => true
     | some r => r.finished) &&
    s.detached.all (fun r => r.finished)

/-- State of the subscription driver (src/launcher.rs lines 23-38): the
generations already torn down, the generation currently being relayed, and
the id the next generation will get. -/
structure DriverState where
  completed : List GState
  current : GState
  nextGen : Nat
deriving Repr

/-- Driver start: the first generation is created immediately. -/
def initDriver : DriverState := ⟨[], initG 0, 1⟩

/-- Driver-level actions: a step inside the current generation, or the outer
loop iterating because the inner event stream ended. -/
inductive DAction where
  | genAct (a : Action)
  | nextGeneration
deriving Repr

/-- Driver semantics: the while-let over the inner stream only returns (and
the outer loop only starts a new generation) when the inner stream has ended. -/
def driverStep (d : DriverState) (a : DAction) : DriverState :=
  match a with
  | DAction.genAct a => { d with current := doStep d.current a }
  | DAction.nextGeneration =>
    if streamEndedB d.current then
      ⟨d.completed ++ [d.current], initG d.nextGen, d.nextGen + 1⟩
    else d

/-- Run the driver under a scheduler. -/
def driverRun (acts : List DAction) : DriverState :=
  acts.foldl driverStep initDriver

/-- Iterate a failing Search K times through the loop body (used to state the
no-permanent-lockout part of the spawn-retry guarantee). -/
def failSearchIter (e : SpawnError) (q : String) : Nat → GState → GState
  | 0, s => s
  | Nat.succ k, s =>
    failSearchIter e q k (processRequest (Except.error e) s (Request.Search q))

/-- Concrete schedule showing Closed followed by a later Response within one
generation: a first connection serves one response and closes naturally, the
consumer notifies the loop, a second Search re-spawns, and the new relay
produces a response on the same generation channel. This is exactly the
recovery path the application takes (src/app.rs lines 366-384). -/
def c2Acts : List Action :=
  [Action.submit (Request.Search "2+2"),
   Action.recvStep (Except.ok ["4"]),
   Action.pumpSlot,
   Action.pumpSlot,
   Action.submit Request.ServiceIsClosed,
   Action.recvStep (Except.error SpawnError.missingExecutable),
   Action.submit (Request.Search "3+3"),
   Action.recvStep (Except.ok ["6"]),
   Action.pumpSlot]

/-- Ownership invariant of the slot: every detached relay already had its
kill signal fired (the handle was dropped when it left the slot). -/
def detachedKilled (s : GState) : Prop :=
  s.detached.all (fun r => r.killFired) = true

/-- Driver invariant: the current generation satisfies the ownership
invariant, and every generation already torn down had exited its recv loop. -/
def DInv (d : DriverState) : Prop :=
  detachedKilled d.current ∧ d.completed.all (fun s => s.loopDone) = true

/-- Concrete generation state with a populated slot, used to instantiate
theorems about the close handler. -/
def st8 : GState := { initG 0 with slot := some ⟨["x"], false, false⟩ }

end Launcher

namespace Calc

/-- C9: for every expression string, Calculation::on_equals_press never fails
and never surfaces an error (the Rust function returns unit and all three
match arms are total): when the external evaluation fails the result is set
to 0.0, on success the result is the numeric value (an Integer value is cast
to f64), and display and expression are unchanged in every case. -/
theorem equals_press_spec (calculate : String → Except Unit Value)
    (c : Calculation) :
    (on_equals_press calculate c).display = c.display ∧
    (on_equals_press calculate c).expression = c.expression ∧
    (∀ e, calculate c.expression = Except.error e →
      (on_equals_press calculate c).result = 0) ∧
    (∀ v, calculate c.expression = Except.ok (Value.Integer v) →
      (on_equals_press calculate c).result = (v : Rat)) ∧
    (∀ x, calculate c.expression = Except.ok (Value.Float x) →
      (on_equals_press calculate c).result = x) := by
  refine ⟨rfl, rfl, ?_, ?_, ?_⟩ <;> intro v h <;> simp [on_equals_press, h]

/-- Witness for C9 at a concrete failing evaluation. -/
theorem equals_press_spec_witness :
    (on_equals_press evalStub ⟨"12+", "12+", 7⟩).result = 0 :=
  (equals_press_spec evalStub ⟨"12+", "12+", 7⟩).2.2.1 () rfl

/-- C10: pressing Backspace pops only the last character of expression,
leaving display and result untouched, so display and expression can diverge
afterwards; every other non-Clear, non-Equal operator goes through
add_operator, which appends a nonempty piece to both display and
expression. -/
theorem operator_press_spec :
    (∀ (calculate : String → Except Unit Value) (c : Calculation),
      on_operator_press calculate c Operator.Backspace =
        { c with expression := c.expression.dropRight 1 }) ∧
    (∃ c : Calculation, c.expression ≠ "" ∧
      (on_operator_press evalStub c Operator.Backspace).display ≠
        (on_operator_press evalStub c Operator.Backspace).expression) ∧
    (∀ (calculate : String → Except Unit Value) (c : Calculation)
        (op : Operator),
      op ∈ [Operator.Add, Operator.Subtract, Operator.Multiply,
            Operator.Divide, Operator.Modulus, Operator.Point] →
      on_operator_press calculate c op = add_operator c op ∧
      (add_operator c op).expression = c.expression ++ op.expression ∧
      (add_operator c op).display = c.display ++ op.display ∧
      op.expression ≠ "" ∧ op.display ≠ "") := by
  refine ⟨fun calculate c => rfl, ⟨⟨"1", "1", 0⟩, by decide, by decide⟩, ?_⟩
  intro calculate c op hmem
  simp only [List.mem_cons, List.not_mem_nil, or_false] at hmem
  rcases hmem with h | h | h | h | h | h <;> subst h <;>
    exact ⟨rfl, rfl, rfl, by decide, by decide⟩

/-- Witness for C10 at the Add operator and a concrete state. -/
theorem operator_press_spec_witness :
    on_operator_press evalStub ⟨"1", "1", 0⟩ Operator.Add =
      add_operator ⟨"1", "1", 0⟩ Operator.Add ∧
    (add_operator ⟨"1", "1", 0⟩ Operator.Add).expression = "1" ++ "+" := by
  have h := operator_press_spec.2.2 evalStub ⟨"1", "1", 0⟩ Operator.Add
    (by decide)
  exact ⟨h.1, h.2.1⟩

end Calc

namespace Launcher

/-- C7: the fast path of client_request returns a populated slot unchanged,
creating no process and no relay; and in every call at most one spawn is
attempted, which either fully succeeds (slot becomes Some, holding a fresh
relay bound to the daemon stream) or fully fails (slot stays None and the
error is logged). -/
theorem client_request_spec :
    (∀ (sp : Except SpawnError (List Payload)) (r : RelayT),
      client_request sp (some r) = ⟨some r, [], 0⟩) ∧
    (∀ (sp : Except SpawnError (List Payload)) (slot : Option RelayT),
      (client_request sp slot).attempts ≤ 1) ∧
    (∀ ms, client_request (Except.ok ms) none =
      ⟨some ⟨ms, false, false⟩, [], 1⟩) ∧
    (∀ e, client_request (Except.error e) none = ⟨none, [e], 1⟩) := by
  refine ⟨fun sp r => rfl, ?_, fun ms => rfl, fun e => rfl⟩
  intro sp slot
  cases slot with
  | none => cases sp <;> simp [client_request]
  | some r => simp [client_request]

/-- C8: handling Request::ServiceIsClosed with an empty slot is a strict
no-op (the whole loop state is returned unchanged, no event is emitted);
with a populated slot its only effect is clearing the slot, which drops the
handle and fires the relay kill signal. -/
theorem notify_closed_spec :
    (∀ (sp : Except SpawnError (List Payload)) (s : GState), s.slot = none →
      processRequest sp s Request.ServiceIsClosed = s) ∧
    (∀ (sp : Except SpawnError (List Payload)) (s : GState) (r : RelayT),
      s.slot = some r →
      processRequest sp s Request.ServiceIsClosed =
        { s with
          slot := none
          detached := s.detached ++ [{ r with killFired := true }] }) := by
  constructor
  · intro sp s h
    obtain ⟨g, pend, ext, ld, slot, det, tr, snt, el, spw⟩ := s
    cases h
    rfl
  · intro sp s r h
    obtain ⟨g, pend, ext, ld, slot, det, tr, snt, el, spw⟩ := s
    cases h
    rfl

/-- Witness for C8: a concrete no-op close on the empty slot, and a concrete
close that only clears a populated slot. -/
theorem notify_closed_spec_witness :
    processRequest (Except.error SpawnError.missingExecutable) (initG 0)
        Request.ServiceIsClosed = initG 0 ∧
    processRequest (Except.error SpawnError.missingExecutable) st8
        Request.ServiceIsClosed =
      { st8 with slot := none, detached := [⟨["x"], true, false⟩] } := by
  exact ⟨notify_closed_spec.1 _ (initG 0) rfl,
         notify_closed_spec.2 _ st8 ⟨["x"], false, false⟩ rfl⟩

/-- Spawn failure through the loop body: slot stays empty, the error is
logged, nothing is pushed on the event channel. -/
lemma processRequest_fail (e : SpawnError) (q : String) (s : GState)
    (h : s.slot = none) :
    processRequest (Except.error e) s (Request.Search q) =
      { s with errlog := s.errlog ++ [e], spawns := s.spawns + 1 } := by
  obtain ⟨g, pend, ext, ld, slot, det, tr, snt, el, spw⟩ := s
  cases h
  rfl

/-- C4: a failed spawn during Search leaves the slot None, emits no event
(the trace field of the state equality is untouched), forwards nothing, and
logs the spawn error value itself (so a missing executable stays
distinguishable from any other spawn error); and after K consecutive
failures the slot is still None and the (K+1)-th Search performs the
(K+1)-th spawn attempt: there is no permanent lockout. -/
theorem spawn_failure_and_retry :
    (∀ (e : SpawnError) (s : GState) (q : String), s.slot = none →
      processRequest (Except.error e) s (Request.Search q) =
        { s with errlog := s.errlog ++ [e], spawns := s.spawns + 1 }) ∧
    (∀ (e : SpawnError) (q : String) (K : Nat) (s : GState), s.slot = none →
      (failSearchIter e q K s).slot = none ∧
      (failSearchIter e q K s).spawns = s.spawns + K ∧
      (processRequest (Except.error e) (failSearchIter e q K s)
          (Request.Search q)).spawns = s.spawns + K + 1) := by
  constructor
  · exact fun e s q h => processRequest_fail e q s h
  · intro e q K
    induction K with
    | zero =>
      intro s h
      refine ⟨h, rfl, ?_⟩
      rw [failSearchIter, processRequest_fail e q s h]
    | succ k ih =>
      intro s h
      rw [failSearchIter, processRequest_fail e q s h]
      obtain ⟨h1, h2, h3⟩ :=
        ih { s with errlog := s.errlog ++ [e], spawns := s.spawns + 1 } h
      refine ⟨h1, ?_, ?_⟩
      · rw [h2]; dsimp; omega
      · rw [h3]; dsimp; omega

/-- Witness for C4: two consecutive failing spawns from the initial state,
slot still empty, both attempts recorded. -/
theorem spawn_failure_and_retry_witness :
    (failSearchIter SpawnError.missingExecutable "2+2" 2 (initG 0)).slot =
      none ∧
    (failSearchIter SpawnError.missingExecutable "2+2" 2 (initG 0)).spawns =
      2 := by
  have h := spawn_failure_and_retry.2 SpawnError.missingExecutable "2+2" 2
    (initG 0) rfl
  exact ⟨h.1, h.2.1⟩

end Launcher

namespace Launcher

/-- Forwarded responses alone contain no Closed event. -/
lemma countClosed_map_response (l : List Payload) :
    countClosed (l.map Event.Response) = 0 := by
  induction l with
  | nil => rfl
  | cons p ps ih => simpa [countClosed] using ih

/-- A full pump run emits exactly one Closed, at the end. -/
lemma countClosed_responses_closed (l : List Payload) :
    countClosed (l.map Event.Response ++ [Event.ServiceIsClosed]) = 1 := by
  induction l with
  | nil => rfl
  | cons p ps ih => simpa [countClosed] using ih

/-- A pure response prefix trivially satisfies truncation. -/
lemma noResp_map_response (l : List Payload) :
    noRespAfterClosed (l.map Event.Response) = true := by
  induction l with
  | nil => rfl
  | cons p ps ih => simpa [noRespAfterClosed] using ih

/-- A full pump run satisfies truncation: nothing follows its final Closed. -/
lemma noResp_responses_closed (l : List Payload) :
    noRespAfterClosed (l.map Event.Response ++ [Event.ServiceIsClosed]) =
      true := by
  induction l with
  | nil => rfl
  | cons p ps ih => simpa [noRespAfterClosed] using ih

/-- C5: if the daemon stream ends naturally (the cancellation never fires, or
fires only after the pump completed), the relay forwards every message, then
pushes ServiceIsClosed exactly once and finishes; if the cancellation wins
the race after k forwarded messages, the relay finishes having forwarded
only that k-prefix, pushing no ServiceIsClosed and no further daemon
output. -/
theorem relay_race_spec :
    (∀ msgs : List Payload,
      relayOutput msgs none =
        msgs.map Event.Response ++ [Event.ServiceIsClosed] ∧
      countClosed (relayOutput msgs none) = 1) ∧
    (∀ (msgs : List Payload) (k : Nat), msgs.length < k →
      relayOutput msgs (some k) =
        msgs.map Event.Response ++ [Event.ServiceIsClosed] ∧
      countClosed (relayOutput msgs (some k)) = 1) ∧
    (∀ (msgs : List Payload) (k : Nat), k ≤ msgs.length →
      relayOutput msgs (some k) = (msgs.take k).map Event.Response ∧
      countClosed (relayOutput msgs (some k)) = 0) := by
  refine ⟨fun msgs => ⟨rfl, countClosed_responses_closed msgs⟩, ?_, ?_⟩
  · intro msgs k h
    have heq : relayOutput msgs (some k) =
        msgs.map Event.Response ++ [Event.ServiceIsClosed] := by
      simp [relayOutput, h]
    exact ⟨heq, heq ▸ countClosed_responses_closed msgs⟩
  · intro msgs k h
    have hlt : ¬ msgs.length < k := not_lt.mpr h
    have heq : relayOutput msgs (some k) =
        (msgs.take k).map Event.Response := by
      simp [relayOutput, hlt]
    exact ⟨heq, heq ▸ countClosed_map_response (msgs.take k)⟩

/-- Witness for C5: a cancellation winning after one of two messages, and a
cancellation arriving after the pump already finished. -/
theorem relay_race_spec_witness :
    relayOutput ["a", "b"] (some 1) = [Event.Response "a"] ∧
    countClosed (relayOutput ["a", "b"] (some 1)) = 0 ∧
    relayOutput ["a"] (some 5) =
      [Event.Response "a", Event.ServiceIsClosed] := by
  have h1 := relay_race_spec.2.2 ["a", "b"] 1 (by decide)
  have h2 := relay_race_spec.2.1 ["a"] 5 (by decide)
  exact ⟨h1.1, h1.2, h2.1⟩

/-- C2 counterexample: a generation in which the first connection closes
naturally (ServiceIsClosed is pushed), the consumer then submits
Request::ServiceIsClosed followed by a fresh Search, and the re-spawned
relay pushes a Response on the same generation channel after the earlier
ServiceIsClosed. The schedule mirrors the actual recovery path in src/app.rs
lines 366-384. -/
theorem cancellation_truncation_cex :
    (genRun c2Acts (initG 0)).trace =
      [Event.Started 0, Event.Response "4", Event.ServiceIsClosed,
       Event.Response "6"] ∧
    noRespAfterClosed (genRun c2Acts (initG 0)).trace = false := by
  exact ⟨rfl, rfl⟩

/-- C2 amended: truncation holds per connection (per Response Relay), not
per generation: whatever the daemon stream and wherever the cancellation
race resolves, the output of one relay never contains a Response after a
ServiceIsClosed. -/
theorem cancellation_truncation_per_connection
    (msgs : List Payload) (cancelAt : Option Nat) :
    noRespAfterClosed (relayOutput msgs cancelAt) = true := by
  cases cancelAt with
  | none => exact noResp_responses_closed msgs
  | some k =>
    by_cases h : msgs.length < k
    · simpa [relayOutput, h] using noResp_responses_closed msgs
    · simpa [relayOutput, h] using noResp_map_response (msgs.take k)

end Launcher

namespace Launcher

/-- The loop body never flips loopDone, never touches the event trace
directly, and never changes the generation id. -/
lemma processRequest_frame (sp : Except SpawnError (List Payload))
    (s : GState) (r : Request) :
    (processRequest sp s r).loopDone = s.loopDone ∧
    (processRequest sp s r).trace = s.trace ∧
    (processRequest sp s r).gen = s.gen := by
  cases r with
  | Search q =>
    rcases h : client_request sp s.slot with ⟨_ | r2, lg, att⟩ <;>
      simp [processRequest, h]
  | ServiceIsClosed =>
    cases h : s.slot <;> simp [processRequest, h]

/-- No step can set loopDone: the only step that would, recvClosed, is
guarded by the sender count reaching zero, and while the loop runs the
service future itself still owns the original requests_tx. -/
lemma doStep_loopDone (s : GState) (a : Action) (h : s.loopDone = false) :
    (doStep s a).loopDone = false := by
  cases a with
  | submit r => dsimp [doStep]; split <;> exact h
  | cloneHandle => dsimp [doStep]; split <;> exact h
  | dropHandle => exact h
  | recvStep sp =>
    dsimp [doStep]
    rw [if_neg (by simp [h])]
    cases hp : s.pending with
    | nil => exact h
    | cons r rest =>
      exact (processRequest_frame sp { s with pending := rest } r).1.trans h
  | recvClosed =>
    dsimp [doStep]
    rw [if_neg ?_]
    · exact h
    · rintro ⟨-, -, h3⟩
      rw [senderCount, h] at h3
      simp at h3
  | pumpSlot =>
    dsimp [doStep]
    cases hs : s.slot <;> exact h
  | pumpDetached i => exact h
  | cancelWin i => exact h

/-- Under every schedule the recv loop is still running. -/
lemma genRun_loopDone (acts : List Action) (s : GState)
    (h : s.loopDone = false) : (genRun acts s).loopDone = false := by
  induction acts generalizing s with
  | nil => exact h
  | cons a rest ih =>
    simpa [genRun] using ih (doStep s a) (doStep_loopDone s a h)

/-- C1 (refuted on the code): the claim says the recv loop exits once every
request-sender handle held outside the loop is dropped; in the code the
async move service future captured the original requests_tx (used at line 45
to produce the Started clone) and keeps it alive for as long as the future
runs, so the channel always has at least one live sender, recv never returns
None, and under every scheduler action sequence — including dropping every
external handle — the loop never exits and the generation never ends. -/
theorem service_loop_never_exits (g : Nat) (acts : List Action) :
    (genRun acts (initG g)).loopDone = false ∧
    0 < senderCount (genRun acts (initG g)) := by
  have h := genRun_loopDone acts (initG g) rfl
  refine ⟨h, ?_⟩
  simp [senderCount, h]

/-- One listener poll never produces a Started event. -/
lemma pumpOne_event_not_started (r : RelayT) :
    ((pumpOne r).2).toList.filter isStarted = [] := by
  unfold pumpOne
  split
  · rfl
  · split <;> rfl

/-- Polling any relay of a list never produces a Started event. -/
lemma pumpAt_event_not_started (l : List RelayT) (i : Nat) :
    ((pumpAt l i).2).toList.filter isStarted = [] := by
  induction l generalizing i with
  | nil => rfl
  | cons r rs ih =>
    cases i with
    | zero => simpa [pumpAt] using pumpOne_event_not_started r
    | succ n => simpa [pumpAt] using ih n

/-- Every step only appends to the trace, and what it appends never contains
a Started event: Event::Started is constructed once, before the loop. -/
lemma doStep_trace (s : GState) (a : Action) :
    ∃ t, (doStep s a).trace = s.trace ++ t ∧ t.filter isStarted = [] := by
  cases a with
  | submit r =>
    dsimp [doStep]; split <;> exact ⟨[], by simp, rfl⟩
  | cloneHandle =>
    dsimp [doStep]; split <;> exact ⟨[], by simp, rfl⟩
  | dropHandle => exact ⟨[], by simp [doStep], rfl⟩
  | recvStep sp =>
    dsimp [doStep]
    split
    · exact ⟨[], by simp, rfl⟩
    · cases hp : s.pending with
      | nil => exact ⟨[], by simp, rfl⟩
      | cons r rest =>
        have hf := (processRequest_frame sp { s with pending := rest } r).2.1
        exact ⟨[], by simp [hf], rfl⟩
  | recvClosed =>
    dsimp [doStep]; split <;> exact ⟨[], by simp, rfl⟩
  | pumpSlot =>
    dsimp [doStep]
    cases hs : s.slot with
    | none => exact ⟨[], by simp, rfl⟩
    | some r =>
      exact ⟨((pumpOne r).2).toList, by simp, pumpOne_event_not_started r⟩
  | pumpDetached i =>
    exact ⟨((pumpAt s.detached i).2).toList, by simp [doStep],
      pumpAt_event_not_started _ i⟩
  | cancelWin i => exact ⟨[], by simp [doStep], rfl⟩

/-- A whole run only appends Started-free events to the initial trace. -/
lemma genRun_trace (acts : List Action) (s : GState) :
    ∃ t, (genRun acts s).trace = s.trace ++ t ∧ t.filter isStarted = [] := by
  induction acts generalizing s with
  | nil => exact ⟨[], by simp [genRun], rfl⟩
  | cons a rest ih =>
    obtain ⟨t1, h1, h1f⟩ := doStep_trace s a
    obtain ⟨t2, h2, h2f⟩ := ih (doStep s a)
    refine ⟨t1 ++ t2, ?_, ?_⟩
    · have : genRun (a :: rest) s = genRun rest (doStep s a) := rfl
      rw [this, h2, h1, List.append_assoc]
    · simp [List.filter_append, h1f, h2f]

/-- C3: under every schedule, the first event on the generation channel is
Event::Started carrying the handle of this very generation (modelled by the
generation id), and Started appears exactly once in the whole trace — hence
before every Response and every ServiceIsClosed. -/
theorem started_first_and_once (g : Nat) (acts : List Action) :
    (genRun acts (initG g)).trace.head? = some (Event.Started g) ∧
    (genRun acts (initG g)).trace.filter isStarted = [Event.Started g] := by
  obtain ⟨t, ht, htf⟩ := genRun_trace acts (initG g)
  rw [ht]
  constructor
  · simp [initG]
  · simp [initG, List.filter_append, htf, isStarted]

end Launcher

namespace Launcher

/-- A listener poll never changes the kill flag. -/
lemma pumpOne_killFired (r : RelayT) :
    (pumpOne r).1.killFired = r.killFired := by
  unfold pumpOne
  split
  · rfl
  · split <;> rfl

/-- Polling a detached relay keeps the list all-killed. -/
lemma pumpAt_killFired (l : List RelayT) (i : Nat)
    (h : l.all (fun r => r.killFired) = true) :
    ((pumpAt l i).1).all (fun r => r.killFired) = true := by
  induction l generalizing i with
  | nil => rfl
  | cons r rs ih =>
    rw [List.all_cons, Bool.and_eq_true] at h
    cases i with
    | zero =>
      rw [pumpAt, List.all_cons, Bool.and_eq_true]
      exact ⟨by rw [pumpOne_killFired]; exact h.1, h.2⟩
    | succ n =>
      rw [pumpAt, List.all_cons, Bool.and_eq_true]
      exact ⟨h.1, ih n h.2⟩

/-- A cancellation win keeps the list all-killed. -/
lemma cancelWinAt_killFired (l : List RelayT) (i : Nat)
    (h : l.all (fun r => r.killFired) = true) :
    (cancelWinAt l i).all (fun r => r.killFired) = true := by
  induction l generalizing i with
  | nil => rfl
  | cons r rs ih =>
    rw [List.all_cons, Bool.and_eq_true] at h
    cases i with
    | zero =>
      rw [cancelWinAt, List.all_cons, Bool.and_eq_true]
      refine ⟨?_, h.2⟩
      split <;> exact h.1
    | succ n =>
      rw [cancelWinAt, List.all_cons, Bool.and_eq_true]
      exact ⟨h.1, ih n h.2⟩

/-- The loop body preserves the ownership invariant: a relay only reaches the
detached list at the moment its handle is dropped, which fires its kill. -/
lemma processRequest_detached (sp : Except SpawnError (List Payload))
    (s : GState) (r : Request) (h : detachedKilled s) :
    detachedKilled (processRequest sp s r) := by
  cases r with
  | Search q =>
    rcases hc : client_request sp s.slot with ⟨_ | r2, lg, att⟩ <;>
      simpa [processRequest, hc, detachedKilled] using h
  | ServiceIsClosed =>
    cases hs : s.slot with
    | none => simpa [processRequest, hs] using h
    | some r2 =>
      unfold detachedKilled at h ⊢
      simp [processRequest, hs, List.all_append, h]

/-- Every generation step preserves the ownership invariant. -/
lemma doStep_detached (s : GState) (a : Action) (h : detachedKilled s) :
    detachedKilled (doStep s a) := by
  cases a with
  | submit r => dsimp [doStep]; split <;> exact h
  | cloneHandle => dsimp [doStep]; split <;> exact h
  | dropHandle => exact h
  | recvStep sp =>
    dsimp [doStep]
    split
    · exact h
    · cases hp : s.pending with
      | nil => exact h
      | cons r rest => exact processRequest_detached sp _ r h
  | recvClosed => dsimp [doStep]; split <;> exact h
  | pumpSlot =>
    dsimp [doStep]
    cases hs : s.slot <;> exact h
  | pumpDetached i =>
    unfold detachedKilled at h ⊢
    exact pumpAt_killFired _ i h
  | cancelWin i =>
    unfold detachedKilled at h ⊢
    exact cancelWinAt_killFired _ i h

/-- A relay whose kill has fired is not live, so an all-killed list holds no
live relay. -/
lemma filter_active_killed (l : List RelayT)
    (h : l.all (fun r => r.killFired) = true) :
    l.filter RelayT.isActive = [] := by
  induction l with
  | nil => rfl
  | cons r rs ih =>
    rw [List.all_cons, Bool.and_eq_true] at h
    have hr : RelayT.isActive r = false := by
      unfold RelayT.isActive
      rw [h.1]
      rfl
    simp [List.filter_cons, hr, ih h.2]

/-- Under the ownership invariant at most one relay of a generation is live:
the one the slot owns, when it is live. -/
lemma activeRelays_le_one (s : GState) (h : detachedKilled s) :
    activeRelays s ≤ 1 := by
  unfold activeRelays
  rw [filter_active_killed s.detached h]
  cases s.slot with
  | none => simp
  | some r => by_cases hr : r.isActive <;> simp [hr]

/-- Each driver step preserves the driver invariant; the outer loop retires
the current generation only when its event stream has ended, which requires
its recv loop to have exited (the service future owns a responses_tx clone). -/
lemma driverStep_inv (d : DriverState) (a : DAction) (h : DInv d) :
    DInv (driverStep d a) := by
  cases a with
  | genAct a => exact ⟨doStep_detached _ a h.1, h.2⟩
  | nextGeneration =>
    dsimp [driverStep]
    split
    · rename_i hse
      refine ⟨rfl, ?_⟩
      rw [List.all_append, Bool.and_eq_true]
      refine ⟨h.2, ?_⟩
      unfold streamEndedB at hse
      rw [Bool.and_eq_true, Bool.and_eq_true] at hse
      simp [hse.1.1]
    · exact h

/-- The driver invariant holds along every run. -/
lemma driverRun_inv (acts : List DAction) : DInv (driverRun acts) := by
  have h0 : DInv initDriver := ⟨rfl, rfl⟩
  suffices hstep : ∀ (l : List DAction) (d : DriverState),
      DInv d → DInv (l.foldl driverStep d) by
    exact hstep acts initDriver h0
  intro l
  induction l with
  | nil => exact fun d h => h
  | cons a rest ih => exact fun d h => ih _ (driverStep_inv d a h)

/-- C6: at every reachable instant the current generation has at most one
live Response Relay (the slot itself is an Option, so at most one
ClientHandle is populated by construction), and every generation the driver
has retired had fully exited its recv loop before the next one started. -/
theorem single_generation_invariant (acts : List DAction) :
    activeRelays (driverRun acts).current ≤ 1 ∧
    (driverRun acts).completed.all (fun s => s.loopDone) = true := by
  obtain ⟨h1, h2⟩ := driverRun_inv acts
  exact ⟨activeRelays_le_one _ h1, h2⟩

end Launcher
